import Mathlib

/-!
Shallow embedding of the download-validate reconciliation core of the
tablo_downloader repository (src/tablo_downloader/validation.py and the
download_recording reconciliation logic of src/tablo_downloader/tablo.py),
together with theorems settling the frozen claims about it.

Modelling conventions:
* Python floats are modelled as exact rationals (ℚ).
* The filesystem state relevant to one target path is a `FileState`:
  existence, byte size, and the outcome of running ffprobe on the path.
* `subprocess.run` of ffprobe is modelled by `RunOutcome`; its stdout is
  modelled at the JSON-parse level (`Option JValue`, `none` meaning
  `json.loads` raises JSONDecodeError).
* Python exceptions are modelled with `Except PyExc`; the `try/except`
  blocks of the source become explicit handlers on those constructors.
* Log output (the `LOGGER` calls) is modelled as a returned list of
  `LogEntry` values where the source's control flow depends on nothing
  but the level and message.
-/

/-- Severity levels of the Python `logging` module used by the source. -/
inductive LogLevel where
  | debug
  | info
  | warning
  | error
deriving DecidableEq

/-- One emitted log record: a severity level and a message. -/
structure LogEntry where
  level : LogLevel
  msg : String
deriving DecidableEq

/-- Python exceptions that the probing code can raise or catch. -/
inductive PyExc where
  | timeoutExpired
  | fileNotFoundError
  | jsonDecodeError
  | valueError
  | attributeError
  | typeError
deriving DecidableEq

/-- JSON values, the possible results of `json.loads` on ffprobe stdout. -/
inductive JValue where
  | jnull
  | jbool (b : Bool)
  | jnum (q : ℚ)
  | jstr (s : String)
  | jarr (elems : List JValue)
  | jobj (fields : List (String × JValue))

/-- Python truthiness of a JSON value (`if duration_str:` in the source). -/
def JValue.truthy : JValue → Bool
  | .jnull => false
  | .jbool b => b
  | .jnum q => q != 0
  | .jstr s => s != ""
  | .jarr elems => !elems.isEmpty
  | .jobj fields => !fields.isEmpty

/-- Python `value.get(key, default)`: dictionary lookup with a default on
objects, AttributeError on every other value. -/
def pyGet : JValue → String → JValue → Except PyExc JValue
  | .jobj fields, key, dflt => .ok ((fields.lookup key).getD dflt)
  | _, _, _ => .error .attributeError

/-- Digits of a numeral read as a natural number. -/
def digitsToNat (cs : List Char) : Nat :=
  cs.foldl (fun n c => n * 10 + (c.toNat - 48)) 0

/-- Python whitespace strip of the front of a character list. -/
def wsDrop (cs : List Char) : List Char := cs.dropWhile Char.isWhitespace

/-- Python `str.strip()`. -/
def pyStrip (s : String) : String :=
  String.mk ((wsDrop ((wsDrop s.data.reverse)).reverse))

/-- Python `str.lower()`. -/
def pyLower (s : String) : String := String.mk (s.data.map Char.toLower)

/-- Modelled fragment of Python `float(str)`: optional sign, decimal digits
and an optional fractional part, surrounding whitespace ignored; exponent
forms and the inf/nan spellings are outside the fragment the source can
receive from ffprobe and are not modelled. `none` models ValueError. -/
def parseFloat (s : String) : Option ℚ :=
  let cs := (pyStrip s).data
  let signAndRest : ℚ × List Char :=
    match cs with
    | '-' :: t => (-1, t)
    | '+' :: t => (1, t)
    | _ => (1, cs)
  let sign := signAndRest.1
  let rest := signAndRest.2
  let intPart := rest.takeWhile Char.isDigit
  let rest2 := rest.dropWhile Char.isDigit
  match rest2 with
  | [] =>
    if intPart.isEmpty then none
    else some (sign * (digitsToNat intPart : ℚ))
  | '.' :: fracPart =>
    if fracPart.all Char.isDigit && !(intPart.isEmpty && fracPart.isEmpty) then
      some (sign * ((digitsToNat intPart : ℚ) +
        (digitsToNat fracPart : ℚ) / (10 ^ fracPart.length : ℚ)))
    else none
  | _ => none

/-- Python `float(value)` on a JSON value: parse strings (ValueError when
unparsable), pass numbers through, booleans as 0/1, TypeError otherwise. -/
def pyFloat : JValue → Except PyExc ℚ
  | .jstr s =>
    match parseFloat s with
    | some q => .ok q
    | none => .error .valueError
  | .jnum q => .ok q
  | .jbool b => .ok (if b then 1 else 0)
  | _ => .error .typeError

/-- Outcome of the `subprocess.run` invocation of ffprobe: a completed
process with a return code and JSON-parse outcome of its stdout, a
timeout (TimeoutExpired), or a missing executable (FileNotFoundError). -/
inductive RunOutcome where
  | completed (returncode : Int) (stdout : Option JValue)
  | timeoutExpired
  | fileNotFound

/-- Body of the `try` block of `get_video_duration` (validation.py lines
31-42): on return code 0, parse stdout, extract `format.duration` with
defaulting `get` calls, and when the field is truthy convert it with
`float`; every other path returns `None`. Raised exceptions surface as
`Except.error`. -/
def probeBody (run : RunOutcome) : Except PyExc (Option ℚ) :=
  match run with
  | .timeoutExpired => .error .timeoutExpired
  | .fileNotFound => .error .fileNotFoundError
  | .completed rc stdout =>
    if rc = 0 then
      match stdout with
      | none => .error .jsonDecodeError
      | some data =>
        match pyGet data "format" (.jobj []) with
        | .error e => .error e
        | .ok fmt =>
          match pyGet fmt "duration" .jnull with
          | .error e => .error e
          | .ok durVal =>
            if durVal.truthy then
              match pyFloat durVal with
              | .error e => .error e
              | .ok q => .ok (some q)
            else .ok none
    else .ok none

/-- `get_video_duration` (validation.py lines 15-49): the `try` body with
its three `except` handlers. TimeoutExpired and the parse errors
(JSONDecodeError, ValueError) are downgraded to `None` with a
warning-level log, FileNotFoundError to `None` with an error-level log;
any other exception propagates. -/
def get_video_duration (run : RunOutcome) :
    Except PyExc (Option ℚ × List LogEntry) :=
  match probeBody run with
  | .ok r => .ok (r, [])
  | .error .timeoutExpired =>
    .ok (none, [⟨.warning, "ffprobe timed out"⟩])
  | .error .jsonDecodeError =>
    .ok (none, [⟨.warning, "Failed to parse ffprobe output"⟩])
  | .error .valueError =>
    .ok (none, [⟨.warning, "Failed to parse ffprobe output"⟩])
  | .error .fileNotFoundError =>
    .ok (none, [⟨.error, "ffprobe not found. Ensure ffmpeg is installed."⟩])
  | .error e => .error e

/-- Minimum file size to be considered valid (1MB), validation.py line 12. -/
def MIN_FILE_SIZE : Nat := 1024 * 1024

/-- The filesystem facts about one target path that the validation code
reads: `os.path.exists`, `os.path.getsize`, and what running ffprobe on
the path produces. -/
structure FileState where
  fexists : Bool
  size : Nat
  probe : RunOutcome

/-- `validate_video_file` (validation.py lines 52-91): ordered existence,
size and duration checks, then the tolerance-banded duration comparison,
returning the `(is_valid, reason)` tuple. -/
def validate_video_file (fs : FileState) (expected_duration : Option ℚ)
    (duration_tolerance : ℚ) : Except PyExc (Bool × String) :=
  if fs.fexists = false then .ok (false, "File does not exist")
  else if fs.size < MIN_FILE_SIZE then
    .ok (false, "File too small (" ++ toString fs.size ++ " bytes, minimum "
      ++ toString MIN_FILE_SIZE ++ ")")
  else
    match get_video_duration fs.probe with
    | .error e => .error e
    | .ok (none, _) =>
      .ok (false, "Cannot determine video duration (possibly corrupted)")
    | .ok (some actual, _) =>
      match expected_duration with
      | some expected =>
        if expected > 0 then
          if |actual - expected| / expected > duration_tolerance then
            .ok (false, "Duration mismatch: " ++ toString actual
              ++ "s actual vs " ++ toString expected ++ "s expected ("
              ++ toString (|actual - expected| / expected) ++ " deviation)")
          else .ok (true, "Valid (duration: " ++ toString actual ++ "s)")
        else .ok (true, "Valid (duration: " ++ toString actual ++ "s)")
      | none => .ok (true, "Valid (duration: " ++ toString actual ++ "s)")

/-- The record returned by the detailed validation entry point
(validation.py lines 108-114), with the result dictionary's five keys. -/
structure ValidationResult where
  is_valid : Bool
  reason : String
  actual_duration : Option ℚ
  expected_duration : Option ℚ
  deviation : Option ℚ
deriving DecidableEq

/-- `validate_video_file_detailed` (validation.py lines 94-147): the same
ordered existence/size/duration checks, then deviation is recorded —
but `is_valid` is set to `True` on every path that reaches the duration
comparison, with no tolerance check. -/
def validate_video_file_detailed (fs : FileState)
    (expected_duration : Option ℚ) : Except PyExc ValidationResult :=
  if fs.fexists = false then
    .ok ⟨false, "File does not exist", none, expected_duration, none⟩
  else if fs.size < MIN_FILE_SIZE then
    .ok ⟨false, "File too small (" ++ toString fs.size ++ " bytes, minimum "
      ++ toString MIN_FILE_SIZE ++ ")", none, expected_duration, none⟩
  else
    match get_video_duration fs.probe with
    | .error e => .error e
    | .ok (none, _) =>
      .ok ⟨false, "Cannot determine video duration (possibly corrupted)",
        none, expected_duration, none⟩
    | .ok (some actual, _) =>
      match expected_duration with
      | some expected =>
        if expected > 0 then
          .ok ⟨true, "Duration: " ++ toString actual ++ "s actual vs "
            ++ toString expected ++ "s expected ("
            ++ toString (|actual - expected| / expected) ++ " deviation)",
            some actual, some expected, some (|actual - expected| / expected)⟩
        else
          .ok ⟨true, "Duration: " ++ toString actual ++ "s",
            some actual, some expected, none⟩
      | none =>
        .ok ⟨true, "Duration: " ++ toString actual ++ "s",
          some actual, none, none⟩

/-- Fate of the pre-existing target file decided by `download_recording`
(tablo.py lines 264-306): keep it and skip the download, or delete it and
proceed to re-download; `proceedNoFile` is the branch where no file
existed at the target path. -/
inductive ReconcileDecision where
  | keep
  | deleteAndRedownload
  | proceedNoFile
deriving DecidableEq

/-- Observable outcome of the pre-download reconciliation: the decision,
whether `validate_video_file_detailed` was invoked, whether the
interactive prompt was shown, and whether `os.remove` was called on the
pre-existing file. -/
structure ReconcileOutcome where
  decision : ReconcileDecision
  validated : Bool
  prompted : Bool
  removedExisting : Bool
deriving DecidableEq

/-- The affirmative test applied to the prompt answer at tablo.py
lines 300-301: `response.strip().lower() == 'y'`. -/
def affirmative (response : String) : Bool :=
  pyLower (pyStrip response) == "y"

/-- The pre-download reconciliation of `download_recording` (tablo.py
lines 264-306): overwrite deletes unconditionally with validation
skipped; otherwise the detailed validation result drives the
keep / auto-delete / over-50%-delete / 10-50%-prompt branches. -/
def reconcile_existing (overwrite : Bool) (fs : FileState)
    (expected : Option ℚ) (response : String) :
    Except PyExc ReconcileOutcome :=
  if fs.fexists then
    if overwrite then .ok ⟨.deleteAndRedownload, false, false, true⟩
    else
      match validate_video_file_detailed fs expected with
      | .error e => .error e
      | .ok validation =>
        if validation.is_valid = false then
          .ok ⟨.deleteAndRedownload, true, false, true⟩
        else
          match validation.deviation with
          | none => .ok ⟨.keep, true, false, false⟩
          | some d =>
            if d ≤ 0.10 then .ok ⟨.keep, true, false, false⟩
            else if d > 0.50 then
              .ok ⟨.deleteAndRedownload, true, false, true⟩
            else if affirmative response then
              .ok ⟨.deleteAndRedownload, true, true, true⟩
            else .ok ⟨.keep, true, true, false⟩
  else .ok ⟨.proceedNoFile, false, false, false⟩

/-- Observable outcome of the post-transcode block of
`download_recording` (tablo.py lines 331-355): whether the newly written
output file was kept, whether it was removed, whether the remote source
recording deletion was invoked, and whether success was reported. -/
structure PostDownloadOutcome where
  keptFile : Bool
  removedOutput : Bool
  remoteDeleted : Bool
  reportedSuccess : Bool
deriving DecidableEq

/-- The post-transcode block of `download_recording` (tablo.py lines
331-355): on ffmpeg exit 0, re-validate (default tolerance) and keep the
file only on a valid verdict, deleting the remote original when
configured; on a failed verdict delete the just-written file; on a
non-zero exit delete the output after an existence check. `fs` is the
state of the output path after ffmpeg ran. -/
def post_download (returncode : Int) (fs : FileState) (expected : Option ℚ)
    (deleteOriginals : Bool) : Except PyExc PostDownloadOutcome :=
  if returncode = 0 then
    match validate_video_file fs expected 0.10 with
    | .error e => .error e
    | .ok (is_valid, _reason) =>
      if is_valid then .ok ⟨true, false, deleteOriginals, true⟩
      else .ok ⟨false, true, false, false⟩
  else
    if fs.fexists then .ok ⟨false, true, false, false⟩
    else .ok ⟨false, false, false, false⟩

/-- Verdict boolean of the simplified entry point when it returns. -/
def okVerdict (r : Except PyExc (Bool × String)) : Option Bool :=
  match r with
  | .ok (b, _) => some b
  | .error _ => none

/-- Reason string of the simplified entry point when it returns. -/
def okReason (r : Except PyExc (Bool × String)) : Option String :=
  match r with
  | .ok (_, s) => some s
  | .error _ => none

/-- Validity field of the detailed entry point when it returns. -/
def okValid (r : Except PyExc ValidationResult) : Option Bool :=
  match r with
  | .ok v => some v.is_valid
  | .error _ => none

/-- Deviation field of the detailed entry point when it returns. -/
def okDeviation (r : Except PyExc ValidationResult) : Option (Option ℚ) :=
  match r with
  | .ok v => some v.deviation
  | .error _ => none

/-- The probed duration of a file state when `get_video_duration` returns
(outer `none` models a propagated exception). -/
def probedDuration (fs : FileState) : Option (Option ℚ) :=
  match get_video_duration fs.probe with
  | .ok (d, _) => some d
  | .error _ => none

/-- The reconciliation outcome when `reconcile_existing` returns. -/
def okReconcile (r : Except PyExc ReconcileOutcome) : Option ReconcileOutcome :=
  match r with
  | .ok o => some o
  | .error _ => none

/-- An ffprobe run that exits 0 with stdout whose `format.duration` field
is the given JSON value. -/
def probeWith (v : JValue) : RunOutcome :=
  .completed 0 (some (.jobj [("format", .jobj [("duration", v)])]))

/-- An existing 2MiB file whose probed duration is 1000 seconds. -/
def fs1000 : FileState := ⟨true, 2097152, probeWith (.jnum 1000)⟩

/-- An existing 2MiB file whose probed duration is 2880 seconds. -/
def fs2880 : FileState := ⟨true, 2097152, probeWith (.jnum 2880)⟩

/-- An existing 2MiB file whose probed duration is 3000 seconds. -/
def fs3000 : FileState := ⟨true, 2097152, probeWith (.jnum 3000)⟩

/-- An existing 2MiB file whose probed duration is 3500 seconds. -/
def fs3500 : FileState := ⟨true, 2097152, probeWith (.jnum 3500)⟩

/-- A path with no file behind it. -/
def fsMissing : FileState := ⟨false, 0, .completed 0 none⟩

/-- Claim C4: for an existing, large-enough file with a determinable actual
duration and an expected duration strictly greater than zero,
`validate_video_file` compares the exact deviation `|actual - expected| /
expected` against the tolerance argument: the verdict is true exactly when
the deviation is at most the tolerance and false exactly when it exceeds
it. -/
theorem C4_deviation_tolerance (fs : FileState) (e tol a : ℚ)
    (hex : fs.fexists = true) (hsz : ¬ fs.size < MIN_FILE_SIZE)
    (hdur : probedDuration fs = some (some a)) (he : e > 0) :
    (okVerdict (validate_video_file fs (some e) tol) = some true ↔
      |a - e| / e ≤ tol) ∧
    (okVerdict (validate_video_file fs (some e) tol) = some false ↔
      tol < |a - e| / e) := by
  unfold probedDuration at hdur
  rcases hg : get_video_duration fs.probe with ex | pr
  · rw [hg] at hdur; cases hdur
  · rcases pr with ⟨d, logs⟩
    rw [hg] at hdur
    simp only [Option.some.injEq] at hdur
    subst hdur
    by_cases hdev : tol < |a - e| / e
    · constructor
      · simp [validate_video_file, okVerdict, hex, hsz, hg, he, hdev, not_le.mpr hdev]
      · simp [validate_video_file, okVerdict, hex, hsz, hg, he, hdev]
    · constructor
      · simp [validate_video_file, okVerdict, hex, hsz, hg, he, hdev, not_lt.mp hdev]
      · simp [validate_video_file, okVerdict, hex, hsz, hg, he, hdev]

theorem C4_witness :
    okVerdict (validate_video_file fs3000 (some 3600) 0.20) = some true ∧
    okVerdict (validate_video_file fs3000 (some 3600) 0.10) = some false := by
  constructor
  · exact (C4_deviation_tolerance fs3000 3600 0.20 3000 rfl
      (by norm_num [fs3000, MIN_FILE_SIZE])
      (by norm_num [probedDuration, fs3000, probeWith, get_video_duration, probeBody,
        pyGet, pyFloat, JValue.truthy, List.lookup])
      (by norm_num)).1.mpr (by norm_num)
  · exact (C4_deviation_tolerance fs3000 3600 0.10 3000 rfl
      (by norm_num [fs3000, MIN_FILE_SIZE])
      (by norm_num [probedDuration, fs3000, probeWith, get_video_duration, probeBody,
        pyGet, pyFloat, JValue.truthy, List.lookup])
      (by norm_num)).2.mpr (by norm_num)

/-- Claim C5: both validation entry points perform their checks in a fixed
order and short-circuit at the first failure. A non-existent path yields
reason "File does not exist"; an existing file smaller than 1,048,576
bytes yields a reason carrying the actual size and the threshold,
whatever its duration; a file whose duration the prober cannot determine
yields reason "Cannot determine video duration (possibly corrupted)"
however large it is. In the detailed record all later fields stay
absent. -/
theorem C5_ordered_checks (fs : FileState) (e : Option ℚ) (tol : ℚ) :
    (fs.fexists = false →
      validate_video_file fs e tol = .ok (false, "File does not exist") ∧
      validate_video_file_detailed fs e =
        .ok ⟨false, "File does not exist", none, e, none⟩) ∧
    (fs.fexists = true → fs.size < MIN_FILE_SIZE →
      validate_video_file fs e tol = .ok (false, "File too small ("
          ++ toString fs.size ++ " bytes, minimum " ++ toString MIN_FILE_SIZE ++ ")") ∧
      validate_video_file_detailed fs e = .ok ⟨false, "File too small ("
          ++ toString fs.size ++ " bytes, minimum " ++ toString MIN_FILE_SIZE ++ ")",
          none, e, none⟩) ∧
    (fs.fexists = true → ¬ fs.size < MIN_FILE_SIZE → probedDuration fs = some none →
      validate_video_file fs e tol =
        .ok (false, "Cannot determine video duration (possibly corrupted)") ∧
      validate_video_file_detailed fs e =
        .ok ⟨false, "Cannot determine video duration (possibly corrupted)",
          none, e, none⟩) := by
  refine ⟨fun h => ?_, fun hex hsz => ?_, fun hex hsz hdur => ?_⟩
  · constructor <;> simp [validate_video_file, validate_video_file_detailed, h]
  · constructor <;> simp [validate_video_file, validate_video_file_detailed, hex, hsz]
  · unfold probedDuration at hdur
    rcases hg : get_video_duration fs.probe with ex | pr
    · rw [hg] at hdur; cases hdur
    · rcases pr with ⟨d, logs⟩
      rw [hg] at hdur
      simp only [Option.some.injEq] at hdur
      subst hdur
      constructor <;>
        simp [validate_video_file, validate_video_file_detailed, hex, hsz, hg]

theorem C5_witness :
    validate_video_file fsMissing none 0.10 = .ok (false, "File does not exist") ∧
    validate_video_file_detailed fsMissing none =
      .ok ⟨false, "File does not exist", none, none, none⟩ :=
  (C5_ordered_checks fsMissing none 0.10).1 rfl

/-- Claim C6: the duration prober never propagates an exception for
ordinary failure. A timeout of the external tool yields the unknown
result with a warning-level report, undecodable or unparsable structured
output yields unknown with a warning-level report, and absence of the
external tool yields unknown with an error-level report. -/
theorem C6_failures_downgraded :
    (∃ m, get_video_duration .timeoutExpired = .ok (none, [⟨.warning, m⟩])) ∧
    (∃ m, get_video_duration (.completed 0 none) = .ok (none, [⟨.warning, m⟩])) ∧
    (∃ m, get_video_duration .fileNotFound = .ok (none, [⟨.error, m⟩])) ∧
    (∀ s : String, s ≠ "" → parseFloat s = none →
      ∃ m, get_video_duration (probeWith (.jstr s)) = .ok (none, [⟨.warning, m⟩])) := by
  refine ⟨⟨"ffprobe timed out", rfl⟩, ⟨"Failed to parse ffprobe output", rfl⟩,
    ⟨"ffprobe not found. Ensure ffmpeg is installed.", rfl⟩,
    fun s hs hp => ⟨"Failed to parse ffprobe output", ?_⟩⟩
  have hs' : (s != "") = true := by simpa using hs
  simp [get_video_duration, probeBody, probeWith, pyGet, pyFloat, JValue.truthy,
    List.lookup, hs', hp]

theorem C6_witness :
    ∃ m, get_video_duration (probeWith (.jstr "garbage")) = .ok (none, [⟨.warning, m⟩]) :=
  C6_failures_downgraded.2.2.2 "garbage" (by decide) (by decide)

/-- Claim C1 counterexample: on an existing 2MiB file of probed duration
1000s validated against an expected 3600s, the simplified entry point
returns validity false while the detailed entry point returns validity
true, so the two entry points do not agree on the verdict for every
identical input. -/
theorem C1_counterexample :
    okVerdict (validate_video_file fs1000 (some 3600) 0.10) = some false ∧
    okValid (validate_video_file_detailed fs1000 (some 3600)) = some true := by
  constructor <;>
    norm_num [okVerdict, okValid, validate_video_file, validate_video_file_detailed,
      fs1000, probeWith, get_video_duration, probeBody, pyGet, pyFloat,
      MIN_FILE_SIZE, JValue.truthy, List.lookup]

/-- Claim C1 amended: the two validation entry points agree on the
validity verdict except when the duration-deviation test fails: whenever
they differ on an identical input, the detailed verdict is true, the
simplified verdict is false, and the detailed record carries a recorded
deviation strictly above the simplified call's tolerance — the detailed
entry point performs no tolerance comparison. -/
theorem C1_amended (fs : FileState) (e : Option ℚ) (tol : ℚ)
    (h : okValid (validate_video_file_detailed fs e) ≠
      okVerdict (validate_video_file fs e tol)) :
    okValid (validate_video_file_detailed fs e) = some true ∧
    okVerdict (validate_video_file fs e tol) = some false ∧
    ∃ d, okDeviation (validate_video_file_detailed fs e) = some (some d) ∧ tol < d := by
  by_cases hex : fs.fexists = false
  · exact absurd (by simp [okValid, okVerdict, validate_video_file,
      validate_video_file_detailed, hex]) h
  · have hex' : fs.fexists = true := by simpa using hex
    by_cases hsz : fs.size < MIN_FILE_SIZE
    · exact absurd (by simp [okValid, okVerdict, validate_video_file,
        validate_video_file_detailed, hex', hsz]) h
    · rcases hg : get_video_duration fs.probe with ex | pr
      · exact absurd (by simp [okValid, okVerdict, validate_video_file,
          validate_video_file_detailed, hex', hsz, hg]) h
      · rcases pr with ⟨d, logs⟩
        rcases d with _ | a
        · exact absurd (by simp [okValid, okVerdict, validate_video_file,
            validate_video_file_detailed, hex', hsz, hg]) h
        · rcases e with _ | ev
          · exact absurd (by simp [okValid, okVerdict, validate_video_file,
              validate_video_file_detailed, hex', hsz, hg]) h
          · by_cases hev : ev > 0
            · by_cases hdev : |a - ev| / ev > tol
              · refine ⟨?_, ?_, |a - ev| / ev, ?_, hdev⟩ <;>
                  simp [okValid, okVerdict, okDeviation, validate_video_file,
                    validate_video_file_detailed, hex', hsz, hg, hev, hdev]
              · exact absurd (by simp [okValid, okVerdict, validate_video_file,
                  validate_video_file_detailed, hex', hsz, hg, hev, hdev]) h
            · exact absurd (by simp [okValid, okVerdict, validate_video_file,
                validate_video_file_detailed, hex', hsz, hg, hev]) h

theorem C1_amended_witness :
    okValid (validate_video_file_detailed fs1000 (some 3600)) = some true ∧
    okVerdict (validate_video_file fs1000 (some 3600) 0.10) = some false ∧
    ∃ d, okDeviation (validate_video_file_detailed fs1000 (some 3600)) = some (some d) ∧
      (0.10 : ℚ) < d :=
  C1_amended fs1000 (some 3600) 0.10 (by
    norm_num [okVerdict, okValid, validate_video_file, validate_video_file_detailed,
      fs1000, probeWith, get_video_duration, probeBody, pyGet, pyFloat,
      MIN_FILE_SIZE, JValue.truthy, List.lookup])

/-- Claim C2 counterexample: the detailed entry point produces, for
actual duration 1000s against expected 3600s, a ValidationResult whose
recorded deviation 13/18 exceeds the default tolerance 0.10 while its
validity is true — so validity is not false whenever the recorded
deviation exceeds the configured tolerance for every result of either
entry point. -/
theorem C2_counterexample :
    okValid (validate_video_file_detailed fs1000 (some 3600)) = some true ∧
    okDeviation (validate_video_file_detailed fs1000 (some 3600)) = some (some (13/18)) ∧
    (0.10 : ℚ) < 13/18 := by
  refine ⟨?_, ?_, by norm_num⟩ <;>
    norm_num [okValid, okDeviation, validate_video_file_detailed,
      fs1000, probeWith, get_video_duration, probeBody, pyGet, pyFloat,
      MIN_FILE_SIZE, JValue.truthy, List.lookup]

/-- Claim C2 amended: the detailed entry point's validity is true exactly
when the existence/size/duration checks pass (the recorded deviation is
never compared to a tolerance); the simplified entry point's validity is
false exactly when a check fails or the deviation exceeds the tolerance.
For actual 1000.0s against expected 3600.0s the simplified validator
yields validity false with a "Duration mismatch" reason, and the
reconciler deletes and re-downloads without prompting — through its
over-50%-deviation branch, since the detailed result it consumes is
valid. -/
theorem C2_amended :
    (∀ fs e, okValid (validate_video_file_detailed fs e) = some true ↔
      fs.fexists = true ∧ ¬ fs.size < MIN_FILE_SIZE ∧
        ∃ a, probedDuration fs = some (some a)) ∧
    (∀ fs e tol, okVerdict (validate_video_file fs e tol) = some false ↔
      fs.fexists = false ∨ fs.size < MIN_FILE_SIZE ∨ probedDuration fs = some none ∨
        ∃ a ev, probedDuration fs = some (some a) ∧ e = some ev ∧ ev > 0 ∧
          tol < |a - ev| / ev) ∧
    (okVerdict (validate_video_file fs1000 (some 3600) 0.10) = some false ∧
      (∃ rest, okReason (validate_video_file fs1000 (some 3600) 0.10) =
        some ("Duration mismatch: " ++ rest)) ∧
      ∀ resp, okReconcile (reconcile_existing false fs1000 (some 3600) resp) =
        some ⟨.deleteAndRedownload, true, false, true⟩) := by
  refine ⟨fun fs e => ?_, fun fs e tol => ?_, ?_, ?_, fun resp => ?_⟩
  · by_cases hex : fs.fexists = false
    · simp [okValid, validate_video_file_detailed, hex]
    · have hex' : fs.fexists = true := by simpa using hex
      by_cases hsz : fs.size < MIN_FILE_SIZE
      · simp [okValid, validate_video_file_detailed, hex', hsz]
      · rcases hg : get_video_duration fs.probe with ex | pr
        · simp [okValid, validate_video_file_detailed, probedDuration, hex', hsz, hg]
        · rcases pr with ⟨d, logs⟩
          rcases d with _ | a
          · simp [okValid, validate_video_file_detailed, probedDuration, hex', hsz, hg]
          · rcases e with _ | ev
            · simp [okValid, validate_video_file_detailed, probedDuration, hex', hsz, hg]
            · by_cases hev : ev > 0 <;>
                simp [okValid, validate_video_file_detailed, probedDuration,
                  hex', hsz, hg, hev]
  · by_cases hex : fs.fexists = false
    · simp [okVerdict, validate_video_file, hex]
    · have hex' : fs.fexists = true := by simpa using hex
      by_cases hsz : fs.size < MIN_FILE_SIZE
      · simp [okVerdict, validate_video_file, hex', hsz]
      · rcases hg : get_video_duration fs.probe with ex | pr
        · simp [okVerdict, validate_video_file, probedDuration, hex', hsz, hg]
        · rcases pr with ⟨d, logs⟩
          rcases d with _ | a
          · simp [okVerdict, validate_video_file, probedDuration, hex', hsz, hg]
          · rcases e with _ | ev
            · simp [okVerdict, validate_video_file, probedDuration, hex', hsz, hg]
            · by_cases hev : ev > 0
              · by_cases hdev : tol < |a - ev| / ev <;>
                  simp [okVerdict, validate_video_file, probedDuration,
                    hex', hsz, hg, hev, hdev]
              · simp [okVerdict, validate_video_file, probedDuration,
                  hex', hsz, hg, hev]
  · norm_num [okVerdict, validate_video_file, fs1000, probeWith, get_video_duration,
      probeBody, pyGet, pyFloat, MIN_FILE_SIZE, JValue.truthy, List.lookup]
  · norm_num [okReason, validate_video_file, fs1000, probeWith, get_video_duration,
      probeBody, pyGet, pyFloat, MIN_FILE_SIZE, JValue.truthy, List.lookup]
    exact ⟨_, rfl⟩
  · norm_num [okReconcile, reconcile_existing, validate_video_file_detailed, fs1000,
      probeWith, get_video_duration, probeBody, pyGet, pyFloat, MIN_FILE_SIZE,
      JValue.truthy, List.lookup]

theorem C2_amended_witness :
    okValid (validate_video_file_detailed fs1000 (some 3600)) = some true :=
  (C2_amended.1 fs1000 (some 3600)).mpr ⟨rfl, by norm_num [fs1000, MIN_FILE_SIZE],
    1000, by norm_num [probedDuration, fs1000, probeWith, get_video_duration, probeBody,
      pyGet, pyFloat, JValue.truthy, List.lookup]⟩

/-- Claim C7 counterexample: on a tool output whose duration field is the
string "0.0" the prober returns the duration 0, which is not strictly
positive, so a non-unknown result need not be positive. -/
theorem C7_counterexample :
    get_video_duration (probeWith (.jstr "0.0")) = .ok (some 0, []) ∧
    ¬ ((0 : ℚ) > 0) := by
  constructor
  · have d0 : '0'.isDigit = true := by decide
    have dDot : '.'.isDigit = false := by decide
    have w0 : '0'.isWhitespace = false := by decide
    have wDot : '.'.isWhitespace = false := by decide
    have t0 : '0'.toNat = 48 := by decide
    have hp : parseFloat "0.0" = some 0 := by
      norm_num [parseFloat, digitsToNat, pyStrip, wsDrop, d0, dDot, w0, wDot, t0,
        List.takeWhile, List.dropWhile, List.foldl, List.all]
    norm_num +decide [get_video_duration, probeBody, probeWith, pyGet, pyFloat, hp,
      JValue.truthy, List.lookup]
  · norm_num

/-- Claim C7 amended: whenever the duration prober does not signal
unknown, the tool completed with return code 0 and the returned duration
is exactly the number float-parsed from the truthy `format.duration`
field of its output, with no logging; the code applies no positivity
check, so the result is strictly positive only when the parsed field
value is. -/
theorem C7_amended (run : RunOutcome) (q : ℚ) (logs : List LogEntry)
    (h : get_video_duration run = .ok (some q, logs)) :
    ∃ v fmt durVal,
      run = .completed 0 (some v) ∧
      pyGet v "format" (.jobj []) = .ok fmt ∧
      pyGet fmt "duration" .jnull = .ok durVal ∧
      durVal.truthy = true ∧
      pyFloat durVal = .ok q ∧
      logs = [] := by
  rcases run with ⟨rc, stdout⟩ | _ | _
  · by_cases hrc : rc = 0
    · subst hrc
      rcases stdout with _ | v
      · simp [get_video_duration, probeBody] at h
      · rcases hfmt : pyGet v "format" (.jobj []) with ex | fmt
        · rcases ex <;> simp [get_video_duration, probeBody, hfmt] at h
        · rcases hdur : pyGet fmt "duration" .jnull with ex | durVal
          · rcases ex <;> simp [get_video_duration, probeBody, hfmt, hdur] at h
          · by_cases htr : durVal.truthy = true
            · rcases hfl : pyFloat durVal with ex | q'
              · rcases ex <;> simp [get_video_duration, probeBody, hfmt, hdur, htr, hfl] at h
              · have hq : q' = q ∧ logs = [] := by
                  simpa [get_video_duration, probeBody, hfmt, hdur, htr, hfl] using h
                exact ⟨v, fmt, durVal, rfl, hfmt, hdur, htr, hq.1 ▸ hfl, hq.2⟩
            · have htr' : durVal.truthy = false := by simpa using htr
              simp [get_video_duration, probeBody, hfmt, hdur, htr'] at h
    · simp [get_video_duration, probeBody, hrc] at h
  · simp [get_video_duration, probeBody] at h
  · simp [get_video_duration, probeBody] at h

theorem C7_amended_witness :
    ∃ v fmt durVal,
      probeWith (.jstr "0.0") = .completed 0 (some v) ∧
      pyGet v "format" (.jobj []) = .ok fmt ∧
      pyGet fmt "duration" .jnull = .ok durVal ∧
      durVal.truthy = true ∧
      pyFloat durVal = .ok (0 : ℚ) ∧
      ([] : List LogEntry) = [] :=
  C7_amended (probeWith (.jstr "0.0")) 0 [] (by
    have d0 : '0'.isDigit = true := by decide
    have dDot : '.'.isDigit = false := by decide
    have w0 : '0'.isWhitespace = false := by decide
    have wDot : '.'.isWhitespace = false := by decide
    have t0 : '0'.toNat = 48 := by decide
    have hp : parseFloat "0.0" = some 0 := by
      norm_num [parseFloat, digitsToNat, pyStrip, wsDrop, d0, dDot, w0, wDot, t0,
        List.takeWhile, List.dropWhile, List.foldl, List.all]
    norm_num +decide [get_video_duration, probeBody, probeWith, pyGet, pyFloat, hp,
      JValue.truthy, List.lookup])

/-- Claim C3: for every pre-existing target file the reconciler follows
the fixed-threshold table: overwrite requested gives
DELETE_AND_REDOWNLOAD with validation skipped; otherwise an invalid
verdict gives DELETE_AND_REDOWNLOAD; a valid verdict with deviation
absent or at most 0.10 gives KEEP; deviation above 0.50 gives
DELETE_AND_REDOWNLOAD with no prompt; deviation in (0.10, 0.50] prompts
the user, deleting on an affirmative answer and keeping otherwise. -/
theorem C3_decision_table (o : Bool) (fs : FileState) (e : Option ℚ) (resp : String)
    (hex : fs.fexists = true) :
    (o = true → reconcile_existing o fs e resp =
      .ok ⟨.deleteAndRedownload, false, false, true⟩) ∧
    (∀ v, o = false → validate_video_file_detailed fs e = .ok v →
      (v.is_valid = false → reconcile_existing o fs e resp =
        .ok ⟨.deleteAndRedownload, true, false, true⟩) ∧
      (v.is_valid = true → v.deviation = none → reconcile_existing o fs e resp =
        .ok ⟨.keep, true, false, false⟩) ∧
      (∀ d, v.is_valid = true → v.deviation = some d →
        (d ≤ 0.10 → reconcile_existing o fs e resp = .ok ⟨.keep, true, false, false⟩) ∧
        (d > 0.50 → reconcile_existing o fs e resp =
          .ok ⟨.deleteAndRedownload, true, false, true⟩) ∧
        (0.10 < d → d ≤ 0.50 → affirmative resp = true →
          reconcile_existing o fs e resp = .ok ⟨.deleteAndRedownload, true, true, true⟩) ∧
        (0.10 < d → d ≤ 0.50 → affirmative resp = false →
          reconcile_existing o fs e resp = .ok ⟨.keep, true, true, false⟩))) := by
  refine ⟨fun ho => ?_, fun v ho hval => ?_⟩
  · simp [reconcile_existing, hex, ho]
  · subst ho
    refine ⟨fun hniv => ?_, fun hv hdev => ?_,
      fun d hv hdev => ⟨fun h1 => ?_, fun h2 => ?_,
        fun h1 h2 haff => ?_, fun h1 h2 haff => ?_⟩⟩
    · simp [reconcile_existing, hex, hval, hniv]
    · simp [reconcile_existing, hex, hval, hv, hdev]
    · simp [reconcile_existing, hex, hval, hv, hdev, h1]
    · have hn : ¬ d ≤ (0.10 : ℚ) := by
        rw [not_le]
        calc (0.10 : ℚ) < 0.50 := by norm_num
        _ < d := h2
      simp [reconcile_existing, hex, hval, hv, hdev, hn, h2]
    · have hn : ¬ d ≤ (0.10 : ℚ) := not_le.mpr h1
      have hn2 : ¬ d > (0.50 : ℚ) := not_lt.mpr h2
      simp [reconcile_existing, hex, hval, hv, hdev, hn, hn2, haff]
    · have hn : ¬ d ≤ (0.10 : ℚ) := not_le.mpr h1
      have hn2 : ¬ d > (0.50 : ℚ) := not_lt.mpr h2
      simp [reconcile_existing, hex, hval, hv, hdev, hn, hn2, haff]

theorem C3_witness :
    reconcile_existing true fs3500 (some 3600) "" =
      .ok ⟨.deleteAndRedownload, false, false, true⟩ :=
  (C3_decision_table true fs3500 (some 3600) "" rfl).1 rfl

/-- Claim C9 counterexample: with deviation 1/5 inside the 10-50% band,
the prompt response "yes" leads the reconciler to KEEP (aborting the
download), not to DELETE_AND_REDOWNLOAD as the claim states. -/
theorem C9_counterexample :
    okReconcile (reconcile_existing false fs2880 (some 3600) "yes") =
      some ⟨.keep, true, true, false⟩ ∧
    okDeviation (validate_video_file_detailed fs2880 (some 3600)) = some (some (1/5)) ∧
    (0.10 : ℚ) < 1/5 ∧ (1/5 : ℚ) ≤ 0.50 := by
  refine ⟨?_, ?_, by norm_num, by norm_num⟩
  · norm_num [okReconcile, reconcile_existing, validate_video_file_detailed, fs2880,
      probeWith, get_video_duration, probeBody, pyGet, pyFloat, MIN_FILE_SIZE,
      JValue.truthy, List.lookup, affirmative, pyLower, pyStrip, wsDrop]
    decide
  · norm_num [okDeviation, validate_video_file_detailed, fs2880, probeWith,
      get_video_duration, probeBody, pyGet, pyFloat, MIN_FILE_SIZE,
      JValue.truthy, List.lookup]

/-- Claim C9 amended: in the 10-50% deviation band the reconciler blocks
on a prompt, and only a response whose stripped lowercased form is
exactly "y" leads to DELETE_AND_REDOWNLOAD; any other response —
including "yes" — leads to KEEP, aborting the download of this
recording. -/
theorem C9_amended (fs : FileState) (e : Option ℚ) (resp : String) (d : ℚ)
    (hex : fs.fexists = true)
    (hv : okValid (validate_video_file_detailed fs e) = some true)
    (hdev : okDeviation (validate_video_file_detailed fs e) = some (some d))
    (h1 : 0.10 < d) (h2 : d ≤ 0.50) :
    reconcile_existing false fs e resp =
      .ok ⟨if affirmative resp then .deleteAndRedownload else .keep,
        true, true, affirmative resp⟩ ∧
    affirmative "y" = true ∧ affirmative " Y " = true ∧ affirmative "yes" = false := by
  refine ⟨?_, by decide, by decide, by decide⟩
  rcases hval : validate_video_file_detailed fs e with ex | v
  · rw [hval] at hv; simp [okValid] at hv
  · rw [hval] at hv hdev
    simp only [okValid, okDeviation, Option.some.injEq] at hv hdev
    have hn : ¬ d ≤ (0.10 : ℚ) := not_le.mpr h1
    have hn2 : ¬ d > (0.50 : ℚ) := not_lt.mpr h2
    by_cases haff : affirmative resp = true
    · simp [reconcile_existing, hex, hval, hv, hdev, hn, hn2, haff]
    · have haff' : affirmative resp = false := by simpa using haff
      simp [reconcile_existing, hex, hval, hv, hdev, hn, hn2, haff']

theorem C9_amended_witness :
    reconcile_existing false fs2880 (some 3600) "y" =
      .ok ⟨.deleteAndRedownload, true, true, true⟩ := by
  have h := (C9_amended fs2880 (some 3600) "y" (1/5) rfl
    (by norm_num [okValid, validate_video_file_detailed, fs2880, probeWith,
      get_video_duration, probeBody, pyGet, pyFloat, MIN_FILE_SIZE,
      JValue.truthy, List.lookup])
    (by norm_num [okDeviation, validate_video_file_detailed, fs2880, probeWith,
      get_video_duration, probeBody, pyGet, pyFloat, MIN_FILE_SIZE,
      JValue.truthy, List.lookup])
    (by norm_num) (by norm_num)).1
  simpa [show affirmative "y" = true from by decide] using h

/-- Claim C10: for every pre-existing target file, the reconciler removes
the file exactly on the non-KEEP paths: the pre-existing file is left in
place precisely when the decision is KEEP (valid with deviation absent
or at most 0.10, or the user declining the prompt), and is removed
precisely on the overwrite, invalid, over-50%-deviation and
user-confirmed paths. -/
theorem C10_keep_frame (o : Bool) (fs : FileState) (e : Option ℚ) (resp : String)
    (out : ReconcileOutcome) (hex : fs.fexists = true)
    (h : reconcile_existing o fs e resp = .ok out) :
    out.removedExisting = false ↔ out.decision = .keep := by
  unfold reconcile_existing at h
  simp only [hex, if_true] at h
  by_cases ho : o = true
  · simp only [ho, if_true] at h
    injection h with h2
    subst h2
    decide
  · have ho' : o = false := by simpa using ho
    simp only [ho', Bool.false_eq_true, if_false] at h
    rcases hval : validate_video_file_detailed fs e with ex | v
    · rw [hval] at h; cases h
    · rw [hval] at h
      by_cases hiv : v.is_valid = false
      · simp only [hiv, if_true] at h
        injection h with h2
        subst h2
        decide
      · simp only [hiv, if_false] at h
        rcases hdev : v.deviation with _ | d
        · simp only [hdev] at h
          injection h with h2
          subst h2
          decide
        · simp only [hdev] at h
          split_ifs at h <;> (injection h with h2; subst h2; decide)

theorem C10_witness :
    ((⟨.keep, true, false, false⟩ : ReconcileOutcome).removedExisting = false ↔
      (⟨.keep, true, false, false⟩ : ReconcileOutcome).decision = .keep) :=
  C10_keep_frame false fs3500 (some 3600) "" ⟨.keep, true, false, false⟩ rfl (by
    norm_num [reconcile_existing, validate_video_file_detailed, fs3500, probeWith,
      get_video_duration, probeBody, pyGet, pyFloat, MIN_FILE_SIZE,
      JValue.truthy, List.lookup])

/-- Claim C8: after the transcode step the newly written file is kept
exactly when the transcode exited with status zero and the re-validation
verdict is true; a zero exit with a failed verdict removes the
just-written file and reports failure; a non-zero exit removes the
output exactly when it exists; and the remote source recording is
deleted only after a zero exit, a valid verdict, and the configuration
flag. -/
theorem C8_post_download (rc : Int) (fs : FileState) (e : Option ℚ) (del : Bool) :
    (∀ b, rc = 0 → okVerdict (validate_video_file fs e 0.10) = some b →
      post_download rc fs e del = .ok ⟨b, !b, b && del, b⟩) ∧
    (rc ≠ 0 → post_download rc fs e del = .ok ⟨false, fs.fexists, false, false⟩) ∧
    (∀ out, post_download rc fs e del = .ok out →
      (out.keptFile = true ↔
        rc = 0 ∧ okVerdict (validate_video_file fs e 0.10) = some true)) ∧
    (∀ out, post_download rc fs e del = .ok out → out.remoteDeleted = true →
      rc = 0 ∧ del = true ∧ okVerdict (validate_video_file fs e 0.10) = some true) := by
  refine ⟨fun b h0 hv => ?_, fun hne => ?_, fun out h => ?_, fun out h hrem => ?_⟩
  · subst h0
    rcases hval : validate_video_file fs e 0.10 with ex | pr
    · rw [hval] at hv; simp [okVerdict] at hv
    · rcases pr with ⟨b', r⟩
      rw [hval] at hv
      simp only [okVerdict, Option.some.injEq] at hv
      subst hv
      cases b' <;> simp [post_download, hval]
  · simp only [post_download, hne, if_false]
    cases hfe : fs.fexists <;> simp [hfe]
  · by_cases h0 : rc = 0
    · subst h0
      rcases hval : validate_video_file fs e 0.10 with ex | pr
      · simp only [post_download, if_true] at h
        rw [hval] at h; cases h
      · rcases pr with ⟨b', r⟩
        simp only [post_download, if_true] at h
        rw [hval] at h
        cases b'
        · simp only [if_false] at h
          injection h with h2
          subst h2
          simp [okVerdict, hval]
        · simp only [if_true] at h
          injection h with h2
          subst h2
          simp [okVerdict, hval]
    · simp only [post_download, h0, if_false] at h
      cases hfe : fs.fexists
      · rw [hfe] at h
        simp only [Bool.false_eq_true, if_false] at h
        injection h with h2
        subst h2
        simp [h0]
      · rw [hfe] at h
        simp only [if_true] at h
        injection h with h2
        subst h2
        simp [h0]
  · by_cases h0 : rc = 0
    · subst h0
      rcases hval : validate_video_file fs e 0.10 with ex | pr
      · simp only [post_download, if_true] at h
        rw [hval] at h; cases h
      · rcases pr with ⟨b', r⟩
        simp only [post_download, if_true] at h
        rw [hval] at h
        cases b'
        · simp only [if_false] at h
          injection h with h2
          subst h2
          cases hrem
        · simp only [if_true] at h
          injection h with h2
          subst h2
          simp only [] at hrem
          exact ⟨rfl, hrem, by simp [okVerdict, hval]⟩
    · simp only [post_download, h0, if_false] at h
      cases hfe : fs.fexists
      · rw [hfe] at h
        simp only [Bool.false_eq_true, if_false] at h
        injection h with h2
        subst h2
        cases hrem
      · rw [hfe] at h
        simp only [if_true] at h
        injection h with h2
        subst h2
        cases hrem

theorem C8_witness :
    post_download 0 fs3500 (some 3600) true = .ok ⟨true, false, true, true⟩ := by
  have h := (C8_post_download 0 fs3500 (some 3600) true).1 true rfl (by
    norm_num [okVerdict, validate_video_file, fs3500, probeWith, get_video_duration,
      probeBody, pyGet, pyFloat, MIN_FILE_SIZE, JValue.truthy, List.lookup])
  simpa using h
